import Mathlib

/-!
Shallow embedding of the license/subscription backend (`backend.py`,
`Backend/stripe_backend.py`, `Backend/backend.py`, `Backend/license_server.py`,
PayPal `app.py`).  Python strings that travel through `base64`/`hashlib` are
modelled as byte lists (`List Nat`, each element < 256); JSON records are
structures of `Option` fields (an absent dict key is `none`); external
collaborators (`hashlib.sha256(...).hexdigest()`, `datetime.strftime`, the
Stripe SDK) are parameters of the embedded functions.
-/

/-- URL-safe base64 alphabet `A-Z a-z 0-9 - _` as ASCII codes
(`base64.urlsafe_b64encode`). -/
def b64chars : List Nat :=
  [65, 66, 67, 68, 69, 70, 71, 72, 73, 74, 75, 76, 77, 78, 79, 80, 81, 82,
   83, 84, 85, 86, 87, 88, 89, 90,
   97, 98, 99, 100, 101, 102, 103, 104, 105, 106, 107, 108, 109, 110, 111,
   112, 113, 114, 115, 116, 117, 118, 119, 120, 121, 122,
   48, 49, 50, 51, 52, 53, 54, 55, 56, 57, 45, 95]

/-- The alphabet character at index `i` (6-bit group to ASCII code). -/
def b64ch (i : Nat) : Nat := b64chars.getD i 0

def b64idxAux : List Nat → Nat → Nat → Option Nat
  | [], _, _ => none
  | c :: cs, b, i => if c = b then some i else b64idxAux cs b (i + 1)

/-- Index of an ASCII code in the base64 alphabet, `none` if absent. -/
def b64idx (b : Nat) : Option Nat := b64idxAux b64chars b 0

/-- `base64.urlsafe_b64encode` on a byte string: 3 bytes to 4 alphabet
characters, with `=` (ASCII 61) padding. -/
def b64encode : List Nat → List Nat
  | [] => []
  | [a] => [b64ch (a / 4), b64ch (a % 4 * 16), 61, 61]
  | [a, b] => [b64ch (a / 4), b64ch (a % 4 * 16 + b / 16), b64ch (b % 16 * 4), 61]
  | a :: b :: c :: rest =>
    b64ch (a / 4) :: b64ch (a % 4 * 16 + b / 16) ::
      b64ch (b % 16 * 4 + c / 64) :: b64ch (c % 64) :: b64encode rest

/-- `base64.urlsafe_b64decode`: inverse of `b64encode`; `none` on any
malformed group. -/
def b64decode : List Nat → Option (List Nat)
  | [] => some []
  | c1 :: c2 :: c3 :: c4 :: rest =>
    match b64idx c1, b64idx c2 with
    | some a, some b =>
      if c3 = 61 then
        if c4 = 61 ∧ rest = [] then some [a * 4 + b / 16] else none
      else
        match b64idx c3 with
        | some c =>
          if c4 = 61 then
            if rest = [] then some [a * 4 + b / 16, b % 16 * 16 + c / 4] else none
          else
            match b64idx c4 with
            | some d =>
              match b64decode rest with
              | some bs =>
                some ((a * 4 + b / 16) :: (b % 16 * 16 + c / 4) ::
                  (c % 4 * 64 + d) :: bs)
              | none => none
            | none => none
        | none => none
    | _, _ => none
  | _ => none

/-- Python `str.split("|")` at the byte level. -/
def splitOnByte (sep : Nat) : List Nat → List (List Nat)
  | [] => [[]]
  | b :: bs =>
    match splitOnByte sep bs with
    | [] => [[]]
    | cur :: rest => if b = sep then [] :: cur :: rest else (b :: cur) :: rest

/-- A byte string that may appear as a `|`-separated field of a license token:
valid bytes, none of them the separator `|` (ASCII 124). -/
def tokenSafe (bs : List Nat) : Prop := ∀ b ∈ bs, b < 256 ∧ b ≠ 124

instance (bs : List Nat) : Decidable (tokenSafe bs) := by
  unfold tokenSafe; infer_instance

/-- `generate_license(tier_code, duration_days)` from `backend.py` (identical
in `Backend/backend.py` and `Backend/license_server.py`):
`expiry = (utcnow() + timedelta(days=d)).strftime("%Y%m%d")`,
`sig = sha256(f"{tier}|{expiry}|{SECRET}").hexdigest()`, and the token is
`urlsafe_b64encode(f"{tier}|{expiry}|{sig}")`.  `sha` stands for
`hashlib.sha256(...).hexdigest()` (a pure function of its input bytes), `fmt`
for `strftime("%Y%m%d")` applied to a UTC timestamp in seconds, `now` for the
`utcnow()` instant; `timedelta(days=d)` adds `d * 86400` seconds. -/
def generate_license (sha : List Nat → List Nat) (fmt : Nat → List Nat)
    (secret tier : List Nat) (days now : Nat) : List Nat :=
  let expiry := fmt (now + days * 86400)
  let sig := sha (tier ++ 124 :: (expiry ++ 124 :: secret))
  b64encode (tier ++ 124 :: (expiry ++ 124 :: sig))

/-- Modelled from the spec: the repository ships no verifier (clients check
tokens offline), so this is the reference `verify(token)` of spec section 4.1:
base64-decode, split on `|`, recompute the signature over
`tier|expiry|secret` with the same secret, compare (the spec's constant-time
comparison is observationally equality), and return `(tier, expiry)`, or
`Invalid` (`none`) on malformed input or mismatch. -/
def verify (sha : List Nat → List Nat) (secret : List Nat)
    (token : List Nat) : Option (List Nat × List Nat) :=
  match b64decode token with
  | none => none
  | some bs =>
    match splitOnByte 124 bs with
    | [t, e, s] =>
      if s = sha (t ++ 124 :: (e ++ 124 :: secret)) then some (t, e) else none
    | _ => none

/-- One `users.json` record of `backend.py`.  JSON dict keys the code reads or
writes are `Option` fields (`none` = key absent); `provider_customer_id`,
`provider_subscription_id` and `cancel_at` are keys the record could carry
but that no code path of the repository ever writes. -/
structure UserRec where
  tier : Option String := none
  license_key : Option String := none
  expires : Option String := none
  checkout_session_id : Option String := none
  pending_tier : Option String := none
  provider_customer_id : Option String := none
  provider_subscription_id : Option String := none
  cancel_at : Option String := none
deriving DecidableEq

/-- The `users.json` store: a Python dict in insertion order. -/
abbrev UserStore := List (String × UserRec)

/-- `users.get(k)`: value of the first entry keyed `k`. -/
def lookupUser (users : UserStore) (k : String) : Option UserRec :=
  (users.find? (fun p => p.1 = k)).map Prod.snd

/-- `users[k] = v` for a key already present: replace in place, keep order. -/
def updateUser (users : UserStore) (k : String) (v : UserRec) : UserStore :=
  users.map (fun p => if p.1 = k then (k, v) else p)

/-- `users[k] = v` for a possibly absent key (`if k not in users: ...`):
replace in place, or append at the end. -/
def upsertUser (users : UserStore) (k : String) (v : UserRec) : UserStore :=
  if (users.find? (fun p => p.1 = k)).isSome then updateUser users k v
  else users ++ [(k, v)]

/-- The `/get_status` JSON response of `backend.py`: either the bare
`{"tier": "free"}` object or the paid-tier object carrying `license_key` and
`expires` (possibly `null`). -/
inductive StatusResp where
  | free
  | paid (tier : String) (license_key : Option String) (expires : Option String)
deriving DecidableEq

/-- `get_status` from `backend.py` (lines 295-314): unknown user or a record
whose `tier` is not `"pro"`/`"diamond"` reports free; otherwise the stored
tier, `license_key` and `expires` are returned verbatim — no expiry check. -/
def get_status (users : UserStore) (user : String) : StatusResp :=
  match lookupUser users user with
  | none => .free
  | some u =>
    match u.tier with
    | some t =>
      if t = "pro" ∨ t = "diamond" then .paid t u.license_key u.expires
      else .free
    | none => .free

/-- A record of `Backend/stripe_backend.py`'s store: its webhook always
writes all three keys, and its `get_status` reads them unconditionally. -/
structure StripeRec where
  tier : String
  license_key : String
  expires : String
deriving DecidableEq

/-- Outcome of `Backend/stripe_backend.py`'s `/get_status`: a JSON body, the
`400` missing-user rejection, or an uncaught exception (HTTP 500). -/
inductive StripeStatus where
  | ok (r : StatusResp)
  | badRequest
  | serverError
deriving DecidableEq

/-- `get_status` from `Backend/stripe_backend.py` (lines 76-90).  `parseIso`
stands for `datetime.fromisoformat` (`none` = `ValueError`, which this
handler does not catch), `now` for `datetime.utcnow()`, both as comparable
timestamps. -/
def stripe_get_status (parseIso : String → Option Int) (now : Int)
    (users : List (String × StripeRec)) (user : String) : StripeStatus :=
  if user = "" then .badRequest
  else
    match (users.find? (fun p => p.1 = user)).map Prod.snd with
    | none => .ok .free
    | some u =>
      match parseIso u.expires with
      | none => .serverError
      | some t =>
        if t < now then .ok .free
        else .ok (.paid u.tier (some u.license_key) (some u.expires))

/-- `create_checkout` from `backend.py` (lines 89-139).  `lower` stands for
Python's `str.lower` applied to the requested tier; `priceIds` is the
`TIER_PRICE_IDS` environment mapping (`none` = key absent, `some ""` = unset
env var, both rejected); `newSession` the result of
`stripe.checkout.Session.create` (`Except.error` = raised, answered 500
before any store access).  Returns the resulting store and HTTP status. -/
def create_checkout (lower : String → String)
    (priceIds : String → Option String)
    (newSession : Except Unit String) (users : UserStore)
    (username tierRaw : String) : UserStore × Nat :=
  let tier := lower tierRaw
  if username = "" then (users, 400)
  else
    match priceIds tier with
    | none => (users, 400)
    | some p =>
      if p = "" then (users, 400)
      else
        match newSession with
        | .error _ => (users, 500)
        | .ok sessionId =>
          let u := (lookupUser users username).getD {}
          let u2 := { u with
            checkout_session_id := some sessionId,
            pending_tier := some tier }
          (upsertUser users username u2, 200)

/-- The `event["data"]["object"]` payload: the session / invoice keys the
webhook reads, plus `customer` which it never reads. -/
structure EventObj where
  id : Option String := none
  payment_status : Option String := none
  subscription : Option String := none
  customer : Option String := none
  checkout_session : Option String := none
deriving DecidableEq

/-- A verified Stripe webhook event: its `type` and payload object. -/
structure StripeEvent where
  type : String
  obj : EventObj
deriving DecidableEq

structure WebhookResult where
  users : UserStore
  status : Nat
deriving DecidableEq

/-- `upgrade_user_for_session` from `backend.py` (lines 161-180): scan the
store in order for the first record whose `checkout_session_id` equals the
event's session id (Python compares the possibly-absent key with the
possibly-missing event id, hence `Option` equality); if unpaid, change
nothing; otherwise set `tier` to `pending_tier` (default `"pro"`),
`license_key` to a freshly minted license, `expires` to today+30, and pop
both pending keys.  `genLicense` stands for `generate_license(-, 30)` and
`expiryDate` for `strftime("%Y-%m-%d", utcnow + 30 days)`, both at the
processing instant. -/
def upgrade_user_for_session (genLicense : String → String)
    (expiryDate : String) (session_id : Option String) (paid : Bool)
    (users : UserStore) : UserStore × Bool :=
  match users.find? (fun p => p.2.checkout_session_id = session_id) with
  | none => (users, false)
  | some (username, data) =>
    if paid then
      let tier := data.pending_tier.getD "pro"
      let r2 := { data with
        tier := some tier,
        license_key := some (genLicense tier),
        expires := some expiryDate,
        pending_tier := none,
        checkout_session_id := none }
      (updateUser users username r2, true)
    else (users, false)

/-- The record that `upgrade_user_for_session` writes for a matched, paid
session: tier from `pending_tier` (default `"pro"`), fresh license, today+30
expiry, pending keys popped, every other key untouched. -/
def upgradedRec (genLicense : String → String) (expiryDate : String)
    (rec : UserRec) : UserRec :=
  { rec with
    tier := some (rec.pending_tier.getD "pro"),
    license_key := some (genLicense (rec.pending_tier.getD "pro")),
    expires := some expiryDate,
    pending_tier := none,
    checkout_session_id := none }

/-- The `checkout.session.completed` branch of `backend.py`'s webhook
(lines 183-219).  `retrieveInvoiceStatus` stands for
`stripe.Subscription.retrieve(-, expand=["latest_invoice"])` reduced to its
`latest_invoice.status` (`Except.error` = raised, `ok none` = no latest
invoice). -/
def handleCheckoutCompleted (genLicense : String → String)
    (expiryDate : String)
    (retrieveInvoiceStatus : String → Except Unit (Option String))
    (obj : EventObj) (users : UserStore) : WebhookResult :=
  if obj.payment_status = some "paid" then
    ⟨(upgrade_user_for_session genLicense expiryDate obj.id true users).1, 200⟩
  else
    match obj.subscription with
    | some subId =>
      if subId = "" then ⟨users, 200⟩
      else
        match retrieveInvoiceStatus subId with
        | .error _ => ⟨users, 500⟩
        | .ok none => ⟨users, 200⟩
        | .ok (some st) =>
          if st = "paid" then
            ⟨(upgrade_user_for_session genLicense expiryDate obj.id true users).1,
              200⟩
          else ⟨users, 200⟩
    | none => ⟨users, 200⟩

/-- The scan of `backend.py`'s invoice branch (lines 237-250): first user in
order holding a (truthy) `checkout_session_id` whose retrieved session's
`subscription` equals the invoice's; retrieval errors skip the entry.
`retrieveSessionSub` stands for `stripe.checkout.Session.retrieve` reduced to
the session's `subscription` field. -/
def findSessionMatch (retrieveSessionSub : String → Except Unit (Option String))
    (subId : Option String) : UserStore → Option String
  | [] => none
  | (_, data) :: rest =>
    match data.checkout_session_id with
    | none => findSessionMatch retrieveSessionSub subId rest
    | some sessId =>
      if sessId = "" then findSessionMatch retrieveSessionSub subId rest
      else
        match retrieveSessionSub sessId with
        | .error _ => findSessionMatch retrieveSessionSub subId rest
        | .ok sub =>
          if sub = subId then some sessId
          else findSessionMatch retrieveSessionSub subId rest

/-- The `invoice.paid` / `invoice.payment_succeeded` branch of `backend.py`'s
webhook (lines 222-255): first try the invoice's `checkout_session`; if that
upgraded nobody, scan sessions for one whose subscription matches. -/
def handleInvoicePaid (genLicense : String → String) (expiryDate : String)
    (retrieveSessionSub : String → Except Unit (Option String))
    (obj : EventObj) (users : UserStore) : WebhookResult :=
  let afterCs : Option UserStore :=
    match obj.checkout_session with
    | some cs =>
      if cs = "" then none
      else
        let r := upgrade_user_for_session genLicense expiryDate (some cs) true users
        if r.2 then some r.1 else none
    | none => none
  match afterCs with
  | some users2 => ⟨users2, 200⟩
  | none =>
    match findSessionMatch retrieveSessionSub obj.subscription users with
    | some sessId =>
      ⟨(upgrade_user_for_session genLicense expiryDate (some sessId) true users).1,
        200⟩
    | none => ⟨users, 200⟩

/-- The `/webhook` handler of `backend.py` (lines 147-265).  `sigOk` is the
outcome of `stripe.Webhook.construct_event` against the webhook secret
(`false` = raised): on failure the handler answers `400` before any store
access.  Unhandled event types — including every `customer.subscription.*`
notice — fall through to the default `200` with no state change. -/
def webhook (sigOk : Bool) (genLicense : String → String) (expiryDate : String)
    (retrieveInvoiceStatus retrieveSessionSub : String → Except Unit (Option String))
    (evt : StripeEvent) (users : UserStore) : WebhookResult :=
  match sigOk with
  | false => ⟨users, 400⟩
  | true =>
    if evt.type = "checkout.session.completed" then
      handleCheckoutCompleted genLicense expiryDate retrieveInvoiceStatus
        evt.obj users
    else if evt.type = "invoice.paid" ∨ evt.type = "invoice.payment_succeeded" then
      handleInvoicePaid genLicense expiryDate retrieveSessionSub evt.obj users
    else if evt.type = "invoice.payment_failed" then ⟨users, 200⟩
    else ⟨users, 200⟩

theorem b64idx_b64ch (i : Nat) (h : i < 64) : b64idx (b64ch i) = some i := by
  have hall : ∀ j : Fin 64, b64idx (b64ch j.val) = some j.val := by decide
  exact hall ⟨i, h⟩

theorem b64ch_ne_61 (i : Nat) (h : i < 64) : b64ch i ≠ 61 := by
  have hall : ∀ j : Fin 64, b64ch j.val ≠ 61 := by decide
  exact hall ⟨i, h⟩

theorem b64_roundtrip : ∀ bs : List Nat, (∀ b ∈ bs, b < 256) →
    b64decode (b64encode bs) = some bs := by
  intro bs
  induction bs using b64encode.induct with
  | case1 =>
    intro _; rfl
  | case2 a =>
    intro h
    have ha : a < 256 := h a (by simp)
    have h1 : a / 4 < 64 := by omega
    have h2 : a % 4 * 16 < 64 := by omega
    simp only [b64encode, b64decode, b64idx_b64ch _ h1, b64idx_b64ch _ h2]
    rw [if_pos trivial, if_pos ⟨trivial, trivial⟩]
    have e1 : a / 4 * 4 + a % 4 * 16 / 16 = a := by omega
    rw [e1]
  | case3 a b =>
    intro h
    have ha : a < 256 := h a (by simp)
    have hb : b < 256 := h b (by simp)
    have h1 : a / 4 < 64 := by omega
    have h2 : a % 4 * 16 + b / 16 < 64 := by omega
    have h3 : b % 16 * 4 < 64 := by omega
    simp only [b64encode, b64decode, b64idx_b64ch _ h1, b64idx_b64ch _ h2,
      b64idx_b64ch _ h3]
    rw [if_neg (b64ch_ne_61 _ h3), if_pos trivial, if_pos trivial]
    have e1 : a / 4 * 4 + (a % 4 * 16 + b / 16) / 16 = a := by omega
    have e2 : (a % 4 * 16 + b / 16) % 16 * 16 + b % 16 * 4 / 4 = b := by omega
    rw [e1, e2]
  | case4 a b c rest ih =>
    intro h
    have ha : a < 256 := h a (by simp)
    have hb : b < 256 := h b (by simp)
    have hc : c < 256 := h c (by simp)
    have h1 : a / 4 < 64 := by omega
    have h2 : a % 4 * 16 + b / 16 < 64 := by omega
    have h3 : b % 16 * 4 + c / 64 < 64 := by omega
    have h4 : c % 64 < 64 := by omega
    have hrest : ∀ x ∈ rest, x < 256 := by
      intro x hx; exact h x (by simp [hx])
    simp only [b64encode, b64decode, b64idx_b64ch _ h1, b64idx_b64ch _ h2,
      b64idx_b64ch _ h3, b64idx_b64ch _ h4]
    rw [if_neg (b64ch_ne_61 _ h3), if_neg (b64ch_ne_61 _ h4), ih hrest]
    have e1 : a / 4 * 4 + (a % 4 * 16 + b / 16) / 16 = a := by omega
    have e2 : (a % 4 * 16 + b / 16) % 16 * 16 + (b % 16 * 4 + c / 64) / 4 = b := by
      omega
    have e3 : (b % 16 * 4 + c / 64) % 4 * 64 + c % 64 = c := by omega
    simp only [e1, e2, e3]

theorem splitOnByte_ne_nil (sep : Nat) : ∀ l : List Nat, splitOnByte sep l ≠ [] := by
  intro l
  match l with
  | [] => simp [splitOnByte]
  | b :: bs =>
    simp only [splitOnByte]
    cases h : splitOnByte sep bs with
    | nil => simp
    | cons cur rest =>
      by_cases hb : b = sep <;> simp [hb]

theorem splitOnByte_no_sep (sep : Nat) : ∀ l : List Nat, (∀ b ∈ l, b ≠ sep) →
    splitOnByte sep l = [l] := by
  intro l
  induction l with
  | nil => intro _; rfl
  | cons b bs ih =>
    intro h
    have hb : b ≠ sep := h b (by simp)
    have : splitOnByte sep bs = [bs] := ih (fun x hx => h x (by simp [hx]))
    simp [splitOnByte, this, hb]

theorem splitOnByte_append (sep : Nat) : ∀ pre tail : List Nat,
    (∀ b ∈ pre, b ≠ sep) →
    splitOnByte sep (pre ++ sep :: tail) = pre :: splitOnByte sep tail := by
  intro pre tail
  induction pre with
  | nil =>
    intro _
    obtain ⟨c, r, h⟩ : ∃ c r, splitOnByte sep tail = c :: r := by
      cases h : splitOnByte sep tail with
      | nil => exact absurd h (splitOnByte_ne_nil sep tail)
      | cons c r => exact ⟨c, r, rfl⟩
    simp [splitOnByte, h]
  | cons x xs ih =>
    intro h
    have hx : x ≠ sep := h x (by simp)
    have hrec := ih (fun b hb => h b (by simp [hb]))
    simp only [List.cons_append, splitOnByte, List.append_eq, hrec, if_neg hx]

/-- C1: `issue(T, N)` (the code's `generate_license`) produces the URL-safe
base64 of `T|E|S` with `E = strftime("%Y%m%d", utcnow + N days)` and
`S = sha256hex(T|E|secret)`, and the spec's reference `verify` decodes it,
splits on `|`, recomputes the signature with the same secret and returns
`(T, today + N)`.  Hypotheses record that the tier, the serialized date and
the hex digest are byte strings free of the separator `|` (a `YYYYMMDD`
digit string and a hex digest are such by construction). -/
theorem license_roundtrip (sha : List Nat → List Nat) (fmt : Nat → List Nat)
    (secret tier : List Nat) (days now : Nat)
    (h1 : tokenSafe tier) (h2 : tokenSafe (fmt (now + days * 86400)))
    (h3 : tokenSafe (sha (tier ++ 124 :: (fmt (now + days * 86400) ++ 124 :: secret)))) :
    verify sha secret (generate_license sha fmt secret tier days now) =
      some (tier, fmt (now + days * 86400)) := by
  unfold generate_license verify
  have hbytes : ∀ b ∈ tier ++ 124 :: (fmt (now + days * 86400) ++ 124 ::
      sha (tier ++ 124 :: (fmt (now + days * 86400) ++ 124 :: secret))), b < 256 := by
    intro b hb
    simp only [List.mem_append, List.mem_cons] at hb
    rcases hb with h | h | h | h | h
    · exact (h1 b h).1
    · omega
    · exact (h2 b h).1
    · omega
    · exact (h3 b h).1
  have hsplit : splitOnByte 124 (tier ++ 124 :: (fmt (now + days * 86400) ++ 124 ::
      sha (tier ++ 124 :: (fmt (now + days * 86400) ++ 124 :: secret)))) =
      [tier, fmt (now + days * 86400),
        sha (tier ++ 124 :: (fmt (now + days * 86400) ++ 124 :: secret))] := by
    rw [splitOnByte_append 124 tier _ (fun b hb => (h1 b hb).2),
      splitOnByte_append 124 _ _ (fun b hb => (h2 b hb).2),
      splitOnByte_no_sep 124 _ (fun b hb => (h3 b hb).2)]
  simp [b64_roundtrip _ hbytes, hsplit]

/-- Witness for C1 at a concrete tier, date serializer, hash and secret. -/
theorem license_roundtrip_witness :
    tokenSafe [112, 114, 111] ∧
    verify (fun _ => [97, 98]) [115]
        (generate_license (fun _ => [97, 98]) (fun _ => [50, 48]) [115]
          [112, 114, 111] 30 0) =
      some ([112, 114, 111], [50, 48]) :=
  ⟨by decide,
    license_roundtrip (fun _ => [97, 98]) (fun _ => [50, 48]) [115]
      [112, 114, 111] 30 0 (by decide) (by decide) (by decide)⟩

/-- C9: license issuance is deterministic in (tier, validityDays, current UTC
date, secret): `generate_license` reads the wall clock only through the
`%Y%m%d` serialization of `utcnow + days`, so two calls whose instants
serialize to the same date string (same UTC day) under the same hash, secret,
tier and validity return the byte-identical token; the account is not an
input at all, so two accounts purchasing the same tier on the same day
receive identical license keys. -/
theorem generate_license_deterministic (sha : List Nat → List Nat)
    (fmt : Nat → List Nat) (secret tier : List Nat) (days now1 now2 : Nat)
    (h : fmt (now1 + days * 86400) = fmt (now2 + days * 86400)) :
    generate_license sha fmt secret tier days now1 =
      generate_license sha fmt secret tier days now2 := by
  unfold generate_license
  rw [h]

/-- Witness for C9: two instants of the same UTC day yield the same token. -/
theorem generate_license_deterministic_witness :
    (fun _ : Nat => [50, 48]) (0 + 30 * 86400) =
        (fun _ : Nat => [50, 48]) (86399 + 30 * 86400) ∧
    generate_license (fun _ => [97]) (fun _ => [50, 48]) [115] [112] 30 0 =
      generate_license (fun _ => [97]) (fun _ => [50, 48]) [115] [112] 30 86399 :=
  ⟨rfl,
    generate_license_deterministic (fun _ => [97]) (fun _ => [50, 48]) [115]
      [112] 30 0 86399 rfl⟩

theorem lookupUser_updateUser (k : String) (v : UserRec) :
    ∀ users : UserStore, (∃ r, (k, r) ∈ users) →
    lookupUser (updateUser users k v) k = some v := by
  intro users
  induction users with
  | nil =>
    rintro ⟨r, hr⟩
    simp at hr
  | cons a rest ih =>
    rintro ⟨r, hr⟩
    by_cases hk : a.1 = k
    · simp [updateUser, lookupUser, hk]
    · rcases List.mem_cons.mp hr with he | hm
      · exact absurd (congrArg Prod.fst he.symm) hk
      · have htail := ih ⟨r, hm⟩
        simp only [updateUser, lookupUser, List.map_cons, if_neg hk] at htail ⊢
        rw [List.find?_cons_of_neg _ (by simp [hk])]
        exact htail

theorem lookupUser_append_new (k : String) (v : UserRec) :
    ∀ users : UserStore, users.find? (fun p => p.1 = k) = none →
    lookupUser (users ++ [(k, v)]) k = some v := by
  intro users
  induction users with
  | nil => intro _; simp [lookupUser]
  | cons a rest ih =>
    intro h
    have hall := List.find?_eq_none.mp h
    have ha : ¬ a.1 = k := by
      have := hall a (by simp)
      simpa using this
    have hrest : rest.find? (fun p => p.1 = k) = none :=
      List.find?_eq_none.mpr (fun x hx => hall x (by simp [hx]))
    have htail := ih hrest
    simp only [lookupUser, List.cons_append] at htail ⊢
    rw [List.find?_cons_of_neg _ (by simp [ha])]
    exact htail

theorem lookupUser_upsertUser (users : UserStore) (k : String) (v : UserRec) :
    lookupUser (upsertUser users k v) k = some v := by
  unfold upsertUser
  cases h : users.find? (fun p => p.1 = k) with
  | none =>
    rw [if_neg (by simp)]
    exact lookupUser_append_new k v users h
  | some a =>
    rw [if_pos (by simp)]
    have hmem := List.mem_of_find?_eq_some h
    have hpred : a.1 = k := by
      have := List.find?_some h
      simpa using this
    refine lookupUser_updateUser k v users ⟨a.2, ?_⟩
    have : (k, a.2) = a := by
      cases a with
      | mk a1 a2 => simp only [hpred.symm]
    rw [this]
    exact hmem

theorem filter_le_one_unique {pred : String × UserRec → Bool}
    {users : UserStore} (hlen : (users.filter pred).length ≤ 1)
    {a b : String × UserRec} (ha : a ∈ users) (hpa : pred a)
    (hb : b ∈ users) (hpb : pred b) : a = b := by
  have hafil : a ∈ users.filter pred := List.mem_filter.mpr ⟨ha, hpa⟩
  have hbfil : b ∈ users.filter pred := List.mem_filter.mpr ⟨hb, hpb⟩
  cases hf : users.filter pred with
  | nil => rw [hf] at hafil; simp at hafil
  | cons x xs =>
    cases xs with
    | nil =>
      rw [hf] at hafil hbfil
      simp at hafil hbfil
      rw [hafil, hbfil]
    | cons y ys =>
      rw [hf] at hlen
      simp at hlen

theorem webhook_checkout_completed (gl : String → String) (ed : String)
    (ri rs : String → Except Unit (Option String)) (obj : EventObj)
    (users : UserStore) :
    webhook true gl ed ri rs ⟨"checkout.session.completed", obj⟩ users =
      handleCheckoutCompleted gl ed ri obj users := rfl

theorem handleCheckoutCompleted_paid (gl : String → String) (ed : String)
    (ri : String → Except Unit (Option String)) (obj : EventObj)
    (users : UserStore) (hps : obj.payment_status = some "paid") :
    handleCheckoutCompleted gl ed ri obj users =
      ⟨(upgrade_user_for_session gl ed obj.id true users).1, 200⟩ := by
  unfold handleCheckoutCompleted
  rw [hps, if_pos rfl]

theorem upgrade_found (gl : String → String) (ed : String) (sid : Option String)
    (users : UserStore) (n : String) (rec : UserRec)
    (hfind : users.find? (fun p => p.2.checkout_session_id = sid) = some (n, rec)) :
    upgrade_user_for_session gl ed sid true users =
      (updateUser users n (upgradedRec gl ed rec), true) := by
  unfold upgrade_user_for_session
  rw [hfind]
  rfl

theorem upgrade_not_found (gl : String → String) (ed : String)
    (sid : Option String) (users : UserStore)
    (hfind : users.find? (fun p => p.2.checkout_session_id = sid) = none) :
    upgrade_user_for_session gl ed sid true users = (users, false) := by
  unfold upgrade_user_for_session
  rw [hfind]

theorem upgrade_twice (gl : String → String) (ed : String) (sid : String)
    (users : UserStore)
    (huniq : (users.filter (fun p => p.2.checkout_session_id = some sid)).length ≤ 1) :
    (upgrade_user_for_session gl ed (some sid) true
        (upgrade_user_for_session gl ed (some sid) true users).1).1 =
      (upgrade_user_for_session gl ed (some sid) true users).1 := by
  cases hfind : users.find? (fun p => p.2.checkout_session_id = some sid) with
  | none => simp [upgrade_not_found gl ed (some sid) users hfind]
  | some a =>
    obtain ⟨n, rec⟩ := a
    have h1 := upgrade_found gl ed (some sid) users n rec hfind
    have hnone : (updateUser users n (upgradedRec gl ed rec)).find?
        (fun p => p.2.checkout_session_id = some sid) = none := by
      apply List.find?_eq_none.mpr
      intro x hx
      rcases List.mem_map.mp hx with ⟨p, hp, hxp⟩
      by_cases hpk : p.1 = n
      · rw [← hxp, if_pos hpk]
        simp [upgradedRec]
      · rw [← hxp, if_neg hpk]
        simp only [decide_eq_true_eq]
        intro hcontra
        have hmem := List.mem_of_find?_eq_some hfind
        have hpredn := List.find?_some hfind
        have hpq : p = (n, rec) :=
          filter_le_one_unique huniq hp (by simp [hcontra]) hmem hpredn
        exact hpk (by rw [hpq])
    rw [h1]
    show (upgrade_user_for_session gl ed (some sid) true
        (updateUser users n (upgradedRec gl ed rec))).1 =
      updateUser users n (upgradedRec gl ed rec)
    rw [upgrade_not_found gl ed (some sid) _ hnone]

/-- C3: a webhook delivery whose signature does not verify is answered
`400` (`stripe.Webhook.construct_event` raises before the store is even
loaded), and every account record is exactly as before: the returned store
is the input store, whatever the event was. -/
theorem webhook_invalid_signature (gl : String → String) (ed : String)
    (ri rs : String → Except Unit (Option String)) (evt : StripeEvent)
    (users : UserStore) :
    webhook false gl ed ri rs evt users = ⟨users, 400⟩ := rfl

/-- C4, counterexample: a settled `checkout.session.completed` event carrying
both a customer id (`cus_1`) and a subscription id (`sub_1`) upgrades the
matched record, but no `providerCustomerId`/`providerSubscriptionId` is
recorded anywhere — both keys stay absent, contradicting the claim that the
handler records them. -/
theorem checkout_completed_no_provider_ids_counterexample :
    lookupUser (webhook true (fun t => "LIC-" ++ t) "2026-11-11"
        (fun _ => Except.error ()) (fun _ => Except.error ())
        ⟨"checkout.session.completed",
          ⟨some "cs_1", some "paid", some "sub_1", some "cus_1", none⟩⟩
        [("alice", ⟨none, none, none, some "cs_1", some "pro", none, none, none⟩)]).users
      "alice" =
    some ⟨some "pro", some "LIC-pro", some "2026-11-11",
      none, none, none, none, none⟩ := by
  decide

/-- C4, amended: processing a settled `checkout.session.completed` whose
session id equals a record's `pendingCheckoutId` sets that record's tier to
its `pendingTier`, its credential to a freshly minted token for that tier and
its `expiresAt` to today+30, clears both pending fields and leaves every
other field of the record unchanged — in particular no provider customer or
subscription id is recorded. -/
theorem checkout_completed_applies_pending (gl : String → String) (ed : String)
    (ri rs : String → Except Unit (Option String)) (obj : EventObj)
    (sid : String) (users : UserStore) (n : String) (rec : UserRec) (t : String)
    (hid : obj.id = some sid) (hps : obj.payment_status = some "paid")
    (hfind : users.find? (fun p => p.2.checkout_session_id = some sid) =
      some (n, rec))
    (hpt : rec.pending_tier = some t) :
    (webhook true gl ed ri rs ⟨"checkout.session.completed", obj⟩ users).status
        = 200 ∧
    lookupUser
        (webhook true gl ed ri rs ⟨"checkout.session.completed", obj⟩ users).users
        n =
      some { rec with
        tier := some t,
        license_key := some (gl t),
        expires := some ed,
        pending_tier := none,
        checkout_session_id := none } := by
  rw [webhook_checkout_completed, handleCheckoutCompleted_paid gl ed ri obj users hps,
    hid, upgrade_found gl ed (some sid) users n rec hfind]
  constructor
  · rfl
  · show lookupUser (updateUser users n (upgradedRec gl ed rec)) n = _
    rw [lookupUser_updateUser n (upgradedRec gl ed rec) users
      ⟨rec, List.mem_of_find?_eq_some hfind⟩]
    unfold upgradedRec
    rw [hpt]
    rfl

/-- Witness for C4 (amended) at a concrete store and event. -/
theorem checkout_completed_applies_pending_witness :
    (⟨some "cs_1", some "paid", some "sub_1", some "cus_1", none⟩ :
        EventObj).id = some "cs_1" ∧
    (⟨some "cs_1", some "paid", some "sub_1", some "cus_1", none⟩ :
        EventObj).payment_status = some "paid" ∧
    ([("alice", (⟨none, none, none, some "cs_1", some "diamond", none, none,
        none⟩ : UserRec))].find?
      (fun p => p.2.checkout_session_id = some "cs_1") =
      some ("alice", ⟨none, none, none, some "cs_1", some "diamond", none,
        none, none⟩)) ∧
    (⟨none, none, none, some "cs_1", some "diamond", none, none,
        none⟩ : UserRec).pending_tier = some "diamond" ∧
    lookupUser (webhook true (fun t => "LIC-" ++ t) "2026-11-11"
        (fun _ => Except.error ()) (fun _ => Except.error ())
        ⟨"checkout.session.completed",
          ⟨some "cs_1", some "paid", some "sub_1", some "cus_1", none⟩⟩
        [("alice", ⟨none, none, none, some "cs_1", some "diamond", none, none,
          none⟩)]).users "alice" =
      some { (⟨none, none, none, some "cs_1", some "diamond", none, none,
          none⟩ : UserRec) with
        tier := some "diamond",
        license_key := some ((fun t => "LIC-" ++ t) "diamond"),
        expires := some "2026-11-11",
        pending_tier := none,
        checkout_session_id := none } := by
  refine ⟨rfl, rfl, by decide, rfl, ?_⟩
  exact (checkout_completed_applies_pending (fun t => "LIC-" ++ t) "2026-11-11"
    (fun _ => Except.error ()) (fun _ => Except.error ())
    ⟨some "cs_1", some "paid", some "sub_1", some "cus_1", none⟩ "cs_1"
    [("alice", ⟨none, none, none, some "cs_1", some "diamond", none, none, none⟩)]
    "alice" ⟨none, none, none, some "cs_1", some "diamond", none, none, none⟩
    "diamond" rfl rfl (by decide) rfl).2

/-- C10: a settled `checkout.session.completed` matching a record that has no
`pending_tier` stored defaults the granted tier to `"pro"`
(`data.get("pending_tier", "pro")`): the record ends upgraded to `"pro"` with
a pro credential rather than rejected or left unchanged. -/
theorem checkout_completed_defaults_pro (gl : String → String) (ed : String)
    (ri rs : String → Except Unit (Option String)) (obj : EventObj)
    (sid : String) (users : UserStore) (n : String) (rec : UserRec)
    (hid : obj.id = some sid) (hps : obj.payment_status = some "paid")
    (hfind : users.find? (fun p => p.2.checkout_session_id = some sid) =
      some (n, rec))
    (hpt : rec.pending_tier = none) :
    lookupUser
        (webhook true gl ed ri rs ⟨"checkout.session.completed", obj⟩ users).users
        n =
      some { rec with
        tier := some "pro",
        license_key := some (gl "pro"),
        expires := some ed,
        pending_tier := none,
        checkout_session_id := none } := by
  rw [webhook_checkout_completed, handleCheckoutCompleted_paid gl ed ri obj users hps,
    hid, upgrade_found gl ed (some sid) users n rec hfind]
  show lookupUser (updateUser users n (upgradedRec gl ed rec)) n = _
  rw [lookupUser_updateUser n (upgradedRec gl ed rec) users
    ⟨rec, List.mem_of_find?_eq_some hfind⟩]
  unfold upgradedRec
  rw [hpt]
  rfl

/-- Witness for C10 at a concrete store whose matched record lacks
`pending_tier`. -/
theorem checkout_completed_defaults_pro_witness :
    (⟨some "cs_2", some "paid", none, none, none⟩ : EventObj).id = some "cs_2" ∧
    (⟨some "cs_2", some "paid", none, none, none⟩ : EventObj).payment_status
        = some "paid" ∧
    ([("bob", (⟨none, none, none, some "cs_2", none, none, none,
        none⟩ : UserRec))].find?
      (fun p => p.2.checkout_session_id = some "cs_2") =
      some ("bob", ⟨none, none, none, some "cs_2", none, none, none, none⟩)) ∧
    (⟨none, none, none, some "cs_2", none, none, none,
        none⟩ : UserRec).pending_tier = none ∧
    lookupUser (webhook true (fun t => "LIC-" ++ t) "2026-11-11"
        (fun _ => Except.error ()) (fun _ => Except.error ())
        ⟨"checkout.session.completed", ⟨some "cs_2", some "paid", none, none, none⟩⟩
        [("bob", ⟨none, none, none, some "cs_2", none, none, none, none⟩)]).users
      "bob" =
      some { (⟨none, none, none, some "cs_2", none, none, none,
          none⟩ : UserRec) with
        tier := some "pro",
        license_key := some ((fun t => "LIC-" ++ t) "pro"),
        expires := some "2026-11-11",
        pending_tier := none,
        checkout_session_id := none } := by
  refine ⟨rfl, rfl, by decide, rfl, ?_⟩
  exact checkout_completed_defaults_pro (fun t => "LIC-" ++ t) "2026-11-11"
    (fun _ => Except.error ()) (fun _ => Except.error ())
    ⟨some "cs_2", some "paid", none, none, none⟩ "cs_2"
    [("bob", ⟨none, none, none, some "cs_2", none, none, none, none⟩)]
    "bob" ⟨none, none, none, some "cs_2", none, none, none, none⟩
    rfl rfl (by decide) rfl

/-- C5: processing the same settled `checkout.session.completed` event twice
at the same processing instant (same minting function and expiry string)
yields the same final store as processing it once: the first application pops
the matched record's `checkout_session_id`, so the replay finds no match and
changes nothing.  The hypothesis states that at most one record carries the
event's session id (guaranteed by checkout initiation, which stores each
fresh provider session id on exactly one account). -/
theorem checkout_replay_idempotent (gl : String → String) (ed : String)
    (ri rs : String → Except Unit (Option String)) (obj : EventObj)
    (sid : String) (users : UserStore)
    (hid : obj.id = some sid) (hps : obj.payment_status = some "paid")
    (huniq : (users.filter
      (fun p => p.2.checkout_session_id = some sid)).length ≤ 1) :
    webhook true gl ed ri rs ⟨"checkout.session.completed", obj⟩
        (webhook true gl ed ri rs ⟨"checkout.session.completed", obj⟩ users).users =
      webhook true gl ed ri rs ⟨"checkout.session.completed", obj⟩ users := by
  have e1 : webhook true gl ed ri rs ⟨"checkout.session.completed", obj⟩ users =
      ⟨(upgrade_user_for_session gl ed (some sid) true users).1, 200⟩ := by
    rw [webhook_checkout_completed,
      handleCheckoutCompleted_paid gl ed ri obj users hps, hid]
  rw [e1, webhook_checkout_completed,
    handleCheckoutCompleted_paid gl ed ri obj _ hps, hid]
  show (⟨(upgrade_user_for_session gl ed (some sid) true
      (upgrade_user_for_session gl ed (some sid) true users).1).1, 200⟩ :
    WebhookResult) = _
  rw [upgrade_twice gl ed sid users huniq]

/-- Witness for C5 at a concrete store holding one matching record. -/
theorem checkout_replay_idempotent_witness :
    (⟨some "cs_3", some "paid", none, none, none⟩ : EventObj).id = some "cs_3" ∧
    (⟨some "cs_3", some "paid", none, none, none⟩ : EventObj).payment_status
        = some "paid" ∧
    ([("eve", (⟨none, none, none, some "cs_3", some "pro", none, none,
        none⟩ : UserRec))].filter
      (fun p => p.2.checkout_session_id = some "cs_3")).length ≤ 1 ∧
    webhook true (fun t => t) "2026-11-11" (fun _ => Except.error ())
        (fun _ => Except.error ())
        ⟨"checkout.session.completed", ⟨some "cs_3", some "paid", none, none, none⟩⟩
        (webhook true (fun t => t) "2026-11-11" (fun _ => Except.error ())
          (fun _ => Except.error ())
          ⟨"checkout.session.completed",
            ⟨some "cs_3", some "paid", none, none, none⟩⟩
          [("eve", ⟨none, none, none, some "cs_3", some "pro", none, none,
            none⟩)]).users =
      webhook true (fun t => t) "2026-11-11" (fun _ => Except.error ())
        (fun _ => Except.error ())
        ⟨"checkout.session.completed", ⟨some "cs_3", some "paid", none, none, none⟩⟩
        [("eve", ⟨none, none, none, some "cs_3", some "pro", none, none, none⟩)] := by
  refine ⟨rfl, rfl, by decide, ?_⟩
  exact checkout_replay_idempotent (fun t => t) "2026-11-11"
    (fun _ => Except.error ()) (fun _ => Except.error ())
    ⟨some "cs_3", some "paid", none, none, none⟩ "cs_3"
    [("eve", ⟨none, none, none, some "cs_3", some "pro", none, none, none⟩)]
    rfl rfl (by decide)

/-- C7, counterexample: a terminal `customer.subscription.deleted` event for
an active record (here even carrying the matching subscription id) leaves the
store byte-identical — in particular `cancelAt` stays absent, contradicting
the claim that the handler sets it to the provider-reported period end. -/
theorem subscription_deleted_counterexample :
    webhook true (fun t => t) "2026-11-11" (fun _ => Except.error ())
        (fun _ => Except.error ())
        ⟨"customer.subscription.deleted",
          ⟨some "sub_1", none, some "sub_1", some "cus_1", none⟩⟩
        [("alice", ⟨some "pro", some "LIC", some "2026-02-01", none, none, none,
          some "sub_1", none⟩)] =
      ⟨[("alice", ⟨some "pro", some "LIC", some "2026-02-01", none, none, none,
        some "sub_1", none⟩)], 200⟩ ∧
    ((lookupUser [("alice", ⟨some "pro", some "LIC", some "2026-02-01", none,
        none, none, some "sub_1", none⟩)] "alice").getD {}).cancel_at = none := by
  exact ⟨rfl, rfl⟩

/-- C7, amended: `backend.py`'s webhook has no branch for
`customer.subscription.updated`/`deleted` — terminal subscription notices
fall through to the default handler, which answers `200` and performs no
state change at all: no `cancelAt` is recorded, and `tier`, `credential` and
`expiresAt` are untouched (the status query keeps reporting the stored paid
tier, since `backend.py` never degrades it). -/
theorem subscription_events_ignored (gl : String → String) (ed : String)
    (ri rs : String → Except Unit (Option String)) (obj : EventObj)
    (users : UserStore) (ty : String)
    (h : ty = "customer.subscription.updated" ∨
      ty = "customer.subscription.deleted") :
    webhook true gl ed ri rs ⟨ty, obj⟩ users = ⟨users, 200⟩ := by
  rcases h with h | h <;> subst h <;> rfl

/-- Witness for C7 (amended) at a concrete event and store. -/
theorem subscription_events_ignored_witness :
    (("customer.subscription.updated" : String) =
        "customer.subscription.updated" ∨
      ("customer.subscription.updated" : String) =
        "customer.subscription.deleted") ∧
    webhook true (fun t => t) "e" (fun _ => Except.error ())
        (fun _ => Except.error ()) ⟨"customer.subscription.updated", {}⟩
        [("alice", ⟨some "pro", some "LIC", some "2026-02-01", none, none, none,
          none, none⟩)] =
      ⟨[("alice", ⟨some "pro", some "LIC", some "2026-02-01", none, none, none,
        none, none⟩)], 200⟩ :=
  ⟨Or.inl rfl,
    subscription_events_ignored (fun t => t) "e" (fun _ => Except.error ())
      (fun _ => Except.error ()) {}
      [("alice", ⟨some "pro", some "LIC", some "2026-02-01", none, none, none,
        none, none⟩)]
      "customer.subscription.updated" (Or.inl rfl)⟩

/-- C6, counterexample: a record with `tier = "pro"` but no `license_key` and
no `expires` is NOT reported as Free — `backend.py`'s `get_status` checks only
the `tier` key, contradicting the claim that a record missing credential or
expiresAt evaluates to `{tier: Free}`. -/
theorem get_status_missing_credential_counterexample :
    get_status [("bob", ⟨some "pro", none, none, none, none, none, none, none⟩)]
        "bob" =
      .paid "pro" none none := by
  decide

/-- C6, amended: the status query returns `{tier: Free}` whenever the account
has no stored record or the stored record's `tier` is not `"pro"` or
`"diamond"` (missing tier, `"free"`, or anything else) — in particular a
record holding only pending-checkout fields evaluates to Free; a missing
`credential`/`expiresAt` alone does not force Free (the paid tier is reported
with null fields). -/
theorem get_status_free_cases (users : UserStore) (user : String)
    (h : ∀ u, lookupUser users user = some u →
      u.tier ≠ some "pro" ∧ u.tier ≠ some "diamond") :
    get_status users user = .free := by
  cases hl : lookupUser users user with
  | none => simp [get_status, hl]
  | some u =>
    obtain ⟨h1, h2⟩ := h u hl
    simp only [get_status, hl]
    cases ht : u.tier with
    | none => rfl
    | some t =>
      rw [ht] at h1 h2
      show (if t = "pro" ∨ t = "diamond" then
        StatusResp.paid t u.license_key u.expires else StatusResp.free) =
        StatusResp.free
      have hcond : ¬ (t = "pro" ∨ t = "diamond") := by
        rintro (h3 | h3)
        · exact h1 (by rw [h3])
        · exact h2 (by rw [h3])
      rw [if_neg hcond]

/-- Witness for C6 (amended) at a record holding only pending-checkout
fields. -/
theorem get_status_free_cases_witness :
    (∀ u, lookupUser [("alice", ⟨none, none, none, some "cs_1", some "pro",
        none, none, none⟩)] "alice" = some u →
      u.tier ≠ some "pro" ∧ u.tier ≠ some "diamond") ∧
    get_status [("alice", ⟨none, none, none, some "cs_1", some "pro", none,
        none, none⟩)] "alice" = .free := by
  have hyp : ∀ u, lookupUser [("alice", (⟨none, none, none, some "cs_1",
      some "pro", none, none, none⟩ : UserRec))] "alice" = some u →
      u.tier ≠ some "pro" ∧ u.tier ≠ some "diamond" := by
    intro u hu
    have h2 : some (⟨none, none, none, some "cs_1", some "pro", none, none,
      none⟩ : UserRec) = some u := hu
    injection h2 with h3
    subst h3
    exact ⟨by decide, by decide⟩
  exact ⟨hyp, get_status_free_cases _ _ hyp⟩

/-- C2, counterexample: `backend.py`'s `get_status` takes no clock input and
never consults `expires`: a record whose `expiresAt` (2020-01-01) is long
past is still reported with its stored paid tier, contradicting the claim
that it evaluates to `{tier: Free}`. -/
theorem get_status_ignores_expiry_counterexample :
    get_status [("carol", ⟨some "pro", some "LIC", some "2020-01-01", none,
        none, none, none, none⟩)] "carol" =
      .paid "pro" (some "LIC") (some "2020-01-01") := by
  decide

/-- C2, amended: only the `Backend/stripe_backend.py` variant enforces
expiry: when the stored `expires` parses to an instant strictly before now,
its status query reports `{tier: Free}` regardless of the stored paid tier
(an unparsable `expires` raises `ValueError` there, yielding a 500 rather
than Free, and `backend.py`'s status query ignores `expires` entirely). -/
theorem stripe_status_expired_is_free (parseIso : String → Option Int)
    (now : Int) (users : List (String × StripeRec)) (user : String)
    (u : StripeRec) (t : Int) (hu : user ≠ "")
    (hl : (users.find? (fun p => p.1 = user)).map Prod.snd = some u)
    (hp : parseIso u.expires = some t) (hlt : t < now) :
    stripe_get_status parseIso now users user = .ok .free := by
  simp [stripe_get_status, hu, hl, hp, hlt]

/-- Witness for C2 (amended): a pro record expired in the past reports
free. -/
theorem stripe_status_expired_is_free_witness :
    ("dave" : String) ≠ "" ∧
    (([("dave", (⟨"pro", "L", "2020-01-01"⟩ : StripeRec))].find?
        (fun p => p.1 = "dave")).map Prod.snd =
      some (⟨"pro", "L", "2020-01-01"⟩ : StripeRec)) ∧
    (fun _ : String => some (0 : Int)) "2020-01-01" = some 0 ∧
    (0 : Int) < 1 ∧
    stripe_get_status (fun _ => some 0) 1
        [("dave", ⟨"pro", "L", "2020-01-01"⟩)] "dave" = .ok .free := by
  refine ⟨by decide, by decide, rfl, by decide, ?_⟩
  exact stripe_status_expired_is_free (fun _ => some 0) 1
    [("dave", ⟨"pro", "L", "2020-01-01"⟩)] "dave" ⟨"pro", "L", "2020-01-01"⟩ 0
    (by decide) (by decide) rfl (by decide)

/-- C8: a successful checkout initiation for a valid paid tier answers 200
and upserts the account record with `pendingCheckoutId` = the provider
session id and `pendingTier` = the requested tier, overwriting any prior
pending checkout (the field holds one value, so at most one is outstanding),
while every other field — `tier`, `credential`, `expiresAt` included — is
exactly that of the prior record (defaults for a fresh account). -/
theorem create_checkout_sets_pending (lower : String → String)
    (priceIds : String → Option String)
    (sid : String) (users : UserStore) (username tierRaw p : String)
    (hu : username ≠ "") (hp : priceIds (lower tierRaw) = some p)
    (hpne : p ≠ "") :
    (create_checkout lower priceIds (.ok sid) users username tierRaw).2 = 200 ∧
    lookupUser
        (create_checkout lower priceIds (.ok sid) users username tierRaw).1
        username =
      some { (lookupUser users username).getD {} with
        checkout_session_id := some sid,
        pending_tier := some (lower tierRaw) } := by
  have hcc : create_checkout lower priceIds (.ok sid) users username tierRaw =
      (upsertUser users username { (lookupUser users username).getD {} with
        checkout_session_id := some sid,
        pending_tier := some (lower tierRaw) }, 200) := by
    simp [create_checkout, hu, hp, hpne]
  rw [hcc]
  exact ⟨rfl, lookupUser_upsertUser users username _⟩

/-- Witness for C8: an account that already holds a paid tier, a credential
and an older pending checkout initiates a new checkout. -/
theorem create_checkout_sets_pending_witness :
    ("alice" : String) ≠ "" ∧
    (fun t => if t = "pro" then some "price_1" else none)
        ((fun _ : String => "pro") "Pro") = some "price_1" ∧
    ("price_1" : String) ≠ "" ∧
    (create_checkout (fun _ => "pro")
        (fun t => if t = "pro" then some "price_1" else none)
        (.ok "cs_new")
        [("alice", ⟨some "diamond", some "OLD-LIC", some "2026-01-01",
          some "cs_old", some "diamond", none, none, none⟩)]
        "alice" "Pro").2 = 200 ∧
    lookupUser (create_checkout (fun _ => "pro")
        (fun t => if t = "pro" then some "price_1" else none) (.ok "cs_new")
        [("alice", ⟨some "diamond", some "OLD-LIC", some "2026-01-01",
          some "cs_old", some "diamond", none, none, none⟩)]
        "alice" "Pro").1 "alice" =
      some { (lookupUser [("alice", ⟨some "diamond", some "OLD-LIC",
          some "2026-01-01", some "cs_old", some "diamond", none, none,
          none⟩)] "alice").getD {} with
        checkout_session_id := some "cs_new",
        pending_tier := some ((fun _ : String => "pro") "Pro") } := by
  refine ⟨by decide, by decide, by decide, ?_, ?_⟩
  · exact (create_checkout_sets_pending (fun _ => "pro")
      (fun t => if t = "pro" then some "price_1" else none) "cs_new"
      [("alice", ⟨some "diamond", some "OLD-LIC", some "2026-01-01",
        some "cs_old", some "diamond", none, none, none⟩)]
      "alice" "Pro" "price_1" (by decide) (by decide) (by decide)).1
  · exact (create_checkout_sets_pending (fun _ => "pro")
      (fun t => if t = "pro" then some "price_1" else none) "cs_new"
      [("alice", ⟨some "diamond", some "OLD-LIC", some "2026-01-01",
        some "cs_old", some "diamond", none, none, none⟩)]
      "alice" "Pro" "price_1" (by decide) (by decide) (by decide)).2
